import Mathlib

/-!
Shallow embedding of the sfm-utils repository (PySfMUtils): the scene data
model of `sfm_utils/sfm.py` (Intrinsic variants, Pose, View, scene container
with `add_view` / `add_intrinsic` / `add_pose`), the OpenMVG exporter of
`sfm_utils/openmvg.py` (`scene_to_openmvg` with its Cereal pointer-id
counter and rotation-conversion matrix), the AliceVision exporter of
`sfm_utils/alicevision.py` (`scene_to_alicevision`), the dispatching entry
points `export_scene` of `sfm_utils/io.py` and `sfm_export` of
`sfm_utils/sfm.py`, together with the legacy exporters nested in `sfm.py`.

Python floats are modelled as rationals, Python ints as `Int`, fallible
attribute reads and raised exceptions as `Except PyExc`, and the JSON
values handed to `json.dump` as an inductive `Json` type in which the
constructor `Json.strOfNum q` stands for the Python decimal string
rendering `str(q)` of the float `q` (kept symbolic so that string-encoded
numbers stay distinguishable from raw numbers and from literal strings).
-/

/-- Python exceptions that the embedded code can raise. -/
inductive PyExc where
  | typeError
  | attributeError
  | keyError
  | nameError
  | zeroDivisionError
  | valueError (msg : String)
deriving DecidableEq, Repr

instance {ε α : Type} [DecidableEq ε] [DecidableEq α] : DecidableEq (Except ε α) := fun x y =>
  match x, y with
  | .ok a, .ok b =>
    if h : a = b then .isTrue (by rw [h]) else .isFalse (fun hc => h (by injection hc))
  | .error a, .error b =>
    if h : a = b then .isTrue (by rw [h]) else .isFalse (fun hc => h (by injection hc))
  | .ok _, .error _ => .isFalse (fun hc => by injection hc)
  | .error _, .ok _ => .isFalse (fun hc => by injection hc)

/-- `true` on `Except.ok`, `false` on `Except.error`. -/
def isOkE {ε α : Type} : Except ε α → Bool
  | .ok _ => true
  | .error _ => false

/-- The three Intrinsic variants of `sfm.py` (the base class `Intrinsic`,
whose `type` is `'pinhole'`, and the subclasses `IntrinsicRadialK3` and
`IntrinsicBrownT2`); the same three variants appear as the `IntrinsicType`
enum imported by `openmvg.py` / `alicevision.py`. -/
inductive IntrinsicType where
  | pinhole
  | radialK3
  | brownT2
deriving DecidableEq, Repr

/-- An `Intrinsic` object of `sfm.py`: the variant tag plus the backing
fields; `none` models an attribute still holding Python `None`. -/
structure Intrinsic where
  itype : IntrinsicType
  _id : Option Int := none
  _image_width : Option ℚ := none
  _image_height : Option ℚ := none
  _ppx : Option ℚ := none
  _ppy : Option ℚ := none
  _focal_length : Option ℚ := none
  _focal_length_as_pixels : Option ℚ := none
  _sensor_width : Option ℚ := none
  _dist_params : Option (List ℚ) := none
deriving DecidableEq, Repr

/-- `Intrinsic()`: the freshly constructed base (pinhole) intrinsic. -/
def Intrinsic.new : Intrinsic := { itype := .pinhole }

/-- `IntrinsicRadialK3()`: `__init__` sets `_dist_params = [0.0, 0.0, 0.0]`. -/
def IntrinsicRadialK3.new : Intrinsic :=
  { itype := .radialK3, _dist_params := some [0, 0, 0] }

/-- `IntrinsicBrownT2()`: `__init__` sets `_dist_params` to five zeros. -/
def IntrinsicBrownT2.new : Intrinsic :=
  { itype := .brownT2, _dist_params := some [0, 0, 0, 0, 0] }

/-- The `width` property: returns `self._image_width` (possibly `None`). -/
def Intrinsic.width (i : Intrinsic) : Option ℚ := i._image_width

def Intrinsic.width_set (i : Intrinsic) (w : ℚ) : Intrinsic :=
  { i with _image_width := some w }

/-- The `height` property: returns `self._image_height`. -/
def Intrinsic.height (i : Intrinsic) : Option ℚ := i._image_height

def Intrinsic.height_set (i : Intrinsic) (h : ℚ) : Intrinsic :=
  { i with _image_height := some h }

/-- The `focal_length` property: returns `self._focal_length`. -/
def Intrinsic.focal_length (i : Intrinsic) : Option ℚ := i._focal_length

def Intrinsic.focal_length_set (i : Intrinsic) (f : ℚ) : Intrinsic :=
  { i with _focal_length := some f }

/-- The `sensor_width` property: returns `self._sensor_width`. -/
def Intrinsic.sensor_width (i : Intrinsic) : Option ℚ := i._sensor_width

def Intrinsic.sensor_width_set (i : Intrinsic) (w : ℚ) : Intrinsic :=
  { i with _sensor_width := some w }

/-- The `dist_params` getter: returns `self._dist_params`. -/
def Intrinsic.dist_params (i : Intrinsic) : Option (List ℚ) := i._dist_params

/-- The `ppx` property: `self._ppx` if set, else `self.width / 2.0`;
`None / 2.0` raises `TypeError`. -/
def Intrinsic.ppx (i : Intrinsic) : Except PyExc ℚ :=
  match i._ppx with
  | some x => .ok x
  | none =>
    match i._image_width with
    | some w => .ok (w / 2)
    | none => .error .typeError

def Intrinsic.ppx_set (i : Intrinsic) (x : ℚ) : Intrinsic := { i with _ppx := some x }

/-- The `ppy` property: `self._ppy` if set, else `self.height / 2.0`. -/
def Intrinsic.ppy (i : Intrinsic) : Except PyExc ℚ :=
  match i._ppy with
  | some y => .ok y
  | none =>
    match i._image_height with
    | some h => .ok (h / 2)
    | none => .error .typeError

def Intrinsic.ppy_set (i : Intrinsic) (y : ℚ) : Intrinsic := { i with _ppy := some y }

/-- The `focal_length_as_pixels` property: the explicit override if set, else
`max(self.width, self.height) * self.focal_length / self.sensor_width`
recomputed at read time; any `None` among the source fields raises
`TypeError`, and a zero `sensor_width` raises `ZeroDivisionError`. -/
def Intrinsic.focal_length_as_pixels (i : Intrinsic) : Except PyExc ℚ :=
  match i._focal_length_as_pixels with
  | some f => .ok f
  | none =>
    match i._image_width, i._image_height, i._focal_length, i._sensor_width with
    | some w, some h, some fl, some sw =>
      if sw = 0 then .error .zeroDivisionError else .ok (max w h * fl / sw)
    | _, _, _, _ => .error .typeError

def Intrinsic.focal_length_as_pixels_set (i : Intrinsic) (f : ℚ) : Intrinsic :=
  { i with _focal_length_as_pixels := some f }

/-- The `dist_params` setter: the base class property has no setter
(assigning raises `AttributeError`); `IntrinsicRadialK3` stores `p[0:3]`,
`IntrinsicBrownT2` stores `p[0:5]`. -/
def Intrinsic.dist_params_set (i : Intrinsic) (p : List ℚ) : Except PyExc Intrinsic :=
  match i.itype with
  | .pinhole => .error .attributeError
  | .radialK3 => .ok { i with _dist_params := some (p.take 3) }
  | .brownT2 => .ok { i with _dist_params := some (p.take 5) }

/-- `Intrinsic.__eq__` of `sfm.py` (the base-class part): same `type`, then
`width`, `height`, `ppx`, `ppy`, `focal_length_as_pixels` compared in that
order with Python `and` short-circuiting, so the fallible properties are
only read once the earlier comparisons succeeded. -/
def Intrinsic.baseEq (a b : Intrinsic) : Except PyExc Bool :=
  if a.itype ≠ b.itype then .ok false
  else if a.width ≠ b.width then .ok false
  else if a.height ≠ b.height then .ok false
  else
    match a.ppx, b.ppx with
    | .error e, _ => .error e
    | .ok _, .error e => .error e
    | .ok pa, .ok pb =>
      if pa ≠ pb then .ok false
      else
        match a.ppy, b.ppy with
        | .error e, _ => .error e
        | .ok _, .error e => .error e
        | .ok ya, .ok yb =>
          if ya ≠ yb then .ok false
          else
            match a.focal_length_as_pixels, b.focal_length_as_pixels with
            | .error e, _ => .error e
            | .ok _, .error e => .error e
            | .ok fa, .ok fb => .ok (decide (fa = fb))

/-- `a == b` for intrinsics: the subclasses' `__eq__` first runs the
base-class comparison and, only when it returned `True`, additionally
compares `dist_params`; the base class stops at `baseEq`. -/
def Intrinsic.eq (a b : Intrinsic) : Except PyExc Bool :=
  match a.itype with
  | .pinhole => a.baseEq b
  | _ =>
    match a.baseEq b with
    | .error e => .error e
    | .ok false => .ok false
    | .ok true => .ok (decide (a._dist_params = b._dist_params))

/-- A 3x3 matrix of floats (the `numpy` arrays held in `Pose.rotation`),
row-major: row `r`, column `c` is `m<r><c>`. -/
structure Mat3 where
  m00 : ℚ
  m01 : ℚ
  m02 : ℚ
  m10 : ℚ
  m11 : ℚ
  m12 : ℚ
  m20 : ℚ
  m21 : ℚ
  m22 : ℚ
deriving DecidableEq, Repr

/-- `np.eye(3, 3)`. -/
def mat3Id : Mat3 := ⟨1, 0, 0, 0, 1, 0, 0, 0, 1⟩

/-- Matrix product `A @ B`. -/
def mat3Mul (a b : Mat3) : Mat3 :=
  { m00 := a.m00 * b.m00 + a.m01 * b.m10 + a.m02 * b.m20
    m01 := a.m00 * b.m01 + a.m01 * b.m11 + a.m02 * b.m21
    m02 := a.m00 * b.m02 + a.m01 * b.m12 + a.m02 * b.m22
    m10 := a.m10 * b.m00 + a.m11 * b.m10 + a.m12 * b.m20
    m11 := a.m10 * b.m01 + a.m11 * b.m11 + a.m12 * b.m21
    m12 := a.m10 * b.m02 + a.m11 * b.m12 + a.m12 * b.m22
    m20 := a.m20 * b.m00 + a.m21 * b.m10 + a.m22 * b.m20
    m21 := a.m20 * b.m01 + a.m21 * b.m11 + a.m22 * b.m21
    m22 := a.m20 * b.m02 + a.m21 * b.m12 + a.m22 * b.m22 }

/-- `np.ravel(m, order='F')` on a 3x3 array: column-major flattening
(column 0 top to bottom, then column 1, then column 2). -/
def Mat3.ravelF (m : Mat3) : List ℚ :=
  [m.m00, m.m10, m.m20, m.m01, m.m11, m.m21, m.m02, m.m12, m.m22]

/-- A `Pose` object of `sfm.py`. -/
structure Pose where
  _id : Option Int := none
  _center : Option (List ℚ) := none
  _rotation : Option Mat3 := none
deriving DecidableEq, Repr

/-- `Pose()`. -/
def Pose.new : Pose := {}

/-- The `center` property: `[0., 0., 0.]` while `_center` is `None`. -/
def Pose.center (p : Pose) : List ℚ := p._center.getD [0, 0, 0]

/-- The `center` setter stores `c[0:3]`. -/
def Pose.center_set (p : Pose) (c : List ℚ) : Pose := { p with _center := some (c.take 3) }

/-- The `rotation` property: `np.eye(3, 3)` while `_rotation` is `None`. -/
def Pose.rotation (p : Pose) : Mat3 := p._rotation.getD mat3Id

def Pose.rotation_set (p : Pose) (r : Mat3) : Pose := { p with _rotation := some r }

/-- A `View` object. `_path`, `_intrinsic`, `_pose`, `_image_width`,
`_image_height`, `_make`, `_model` are the class attributes of `sfm.py`'s
`View`; `intrinsic_id` and `_pose_id` model the attributes the legacy code
writes dynamically (`none` = the attribute was never assigned, so reading
it raises `AttributeError`). -/
structure View where
  _id : Option Int := none
  _path : Option String := none
  _intrinsic : Option Intrinsic := none
  _pose : Option Pose := none
  intrinsic_id : Option Int := none
  _pose_id : Option Int := none
  _image_width : Option Int := none
  _image_height : Option Int := none
  _make : Option String := none
  _model : Option String := none
deriving DecidableEq, Repr

/-- `View()`. -/
def View.new : View := {}

/-- `view.path.name`: raises `AttributeError` when `path` is `None`, else
the final path component (`pathlib.Path.name`). -/
def View.pathName (v : View) : Except PyExc String :=
  match v._path with
  | none => .error .attributeError
  | some p => .ok ((p.splitOn "/").getLastD "")

/-- `str(view.path)`: `'None'` when the path attribute is `None`. -/
def View.pathStr (v : View) : String :=
  match v._path with
  | none => "None"
  | some p => p

/-- Reading the dynamic `intrinsic_id` attribute of the legacy flow. -/
def View.intrinsic_id_read (v : View) : Except PyExc Int :=
  match v.intrinsic_id with
  | none => .error .attributeError
  | some n => .ok n

/-- The `pose_id` property of `sfm.py` (`return self._pose_id`): raises
`AttributeError` when `_pose_id` was never assigned. -/
def View.pose_id_read (v : View) : Except PyExc Int :=
  match v._pose_id with
  | none => .error .attributeError
  | some n => .ok n

/-- A Python value as returned by the scene mutators (`view.id` ints,
`None`, or - as the claims discuss - an object reference). -/
inductive PyVal where
  | noneV
  | intV (n : Int)
  | viewObj (v : View)
  | poseObj (p : Pose)
  | intrObj (i : Intrinsic)
deriving DecidableEq, Repr

def pyOfOptInt : Option Int → PyVal
  | none => .noneV
  | some n => .intV n

/-- The scene container: `SfMScene` of `sfm.py`; the `Scene` class the
newer `io.py` / `openmvg.py` / `alicevision.py` operate on exposes the same
`views` / `intrinsics` / `poses` / `root_dir` collections. -/
structure SfMScene where
  _root : Option String := none
  views : List View := []
  intrinsics : List Intrinsic := []
  poses : List Pose := []
deriving Repr

/-- `SfMScene()` / `Scene()`. -/
def SfMScene.new : SfMScene := {}

abbrev Scene := SfMScene

/-- `str(scene.root_dir)` (`'None'` when the root was never set). -/
def SfMScene.rootStr (s : SfMScene) : String :=
  match s._root with
  | none => "None"
  | some p => p

/-- `add_view`: sets `view.id = len(self._views)`, appends the view, and
returns `view.id` (an int). The triple is (mutated scene, the view object
after the id assignment, the Python return value). -/
def SfMScene.add_view (s : SfMScene) (view : View) : SfMScene × View × PyVal :=
  let v := { view with _id := some (s.views.length : Int) }
  ({ s with views := s.views ++ [v] }, v, .intV (s.views.length : Int))

/-- `add_pose`: sets `pose.id = len(self._poses)`, appends, returns the id. -/
def SfMScene.add_pose (s : SfMScene) (pose : Pose) : SfMScene × Pose × PyVal :=
  let p := { pose with _id := some (s.poses.length : Int) }
  ({ s with poses := s.poses ++ [p] }, p, .intV (s.poses.length : Int))

/-- The linear scan of `add_intrinsic`: the first existing intrinsic for
which `intrinsic == existing` evaluates to `True`; comparisons can raise. -/
def findEq (i : Intrinsic) : List Intrinsic → Except PyExc (Option Intrinsic)
  | [] => .ok none
  | x :: xs =>
    match Intrinsic.eq i x with
    | .error e => .error e
    | .ok true => .ok (some x)
    | .ok false => findEq i xs

/-- `add_intrinsic`: scans the stored intrinsics for a value-equal one and
returns its id without any structural change; otherwise assigns
`intrinsic.id = len(self._intrinsics)`, appends, and returns the new id. -/
def SfMScene.add_intrinsic (s : SfMScene) (intrinsic : Intrinsic) :
    Except PyExc (SfMScene × PyVal) :=
  match findEq intrinsic s.intrinsics with
  | .error e => .error e
  | .ok (some existing) => .ok (s, pyOfOptInt existing._id)
  | .ok none =>
    .ok ({ s with intrinsics := s.intrinsics ++
            [{ intrinsic with _id := some (s.intrinsics.length : Int) }] },
         .intV (s.intrinsics.length : Int))

/-- The JSON structure handed to `json.dump`. `int` / `num` are numeric
JSON values originating from Python ints / floats; `strOfNum q` stands for
the string `str(q)` of a Python float `q`. -/
inductive Json where
  | null
  | str (s : String)
  | int (n : Int)
  | num (q : ℚ)
  | strOfNum (q : ℚ)
  | arr (elems : List Json)
  | obj (fields : List (String × Json))

/-- JSON of a Python int-or-None attribute. -/
def jOptInt : Option Int → Json
  | none => .null
  | some n => .int n

/-- JSON of a Python float-or-None attribute. -/
def jOptNum : Option ℚ → Json
  | none => .null
  | some q => .num q

/-- `str(x)` of a Python int-or-None value. -/
def pyStrOptInt : Option Int → Json
  | none => .str "None"
  | some n => .str (toString n)

/-- `str(x)` of a Python float-or-None value. -/
def pyStrOptNum : Option ℚ → Json
  | none => .str "None"
  | some q => .strOfNum q

/-- Dictionary lookup on the field list of a JSON object. -/
def lookupStr (key : String) : List (String × Json) → Option Json
  | [] => none
  | (k, v) :: rest => if k = key then some v else lookupStr key rest

/-- Field access on a JSON object. -/
def jGet (key : String) (j : Json) : Option Json :=
  match j with
  | .obj fields => lookupStr key fields
  | _ => none

/-- The array stored under `key` of a JSON object. -/
def jArr (key : String) (j : Json) : Option (List Json) :=
  match jGet key j with
  | some (.arr xs) => some xs
  | _ => none

/-- `__OPENMVG_ROT_MAT = np.array([[-1, 0, 0], [0, 1, 0], [0, 0, -1]])`
from `openmvg.py`. -/
def OPENMVG_ROT_MAT : Mat3 := ⟨-1, 0, 0, 0, 1, 0, 0, 0, -1⟩

/-- `__OPENMVG_INTRINSIC_NAME_MAP` of `openmvg.py` (total over the enum). -/
def IntrinsicType.openmvgName : IntrinsicType → String
  | .pinhole => "pinhole"
  | .radialK3 => "pinhole_radial_k3"
  | .brownT2 => "pinhole_brown_t2"

/-- `__AV_INTRINSIC_NAME_MAP` of `alicevision.py`; the same strings are the
values of the legacy `type` property of `sfm.py`'s intrinsic classes. -/
def IntrinsicType.avName : IntrinsicType → String
  | .pinhole => "pinhole"
  | .radialK3 => "radial3"
  | .brownT2 => "brownt2"

/-- `m.tolist()`: the row-major list-of-rows JSON value. -/
def mat3ToJson (m : Mat3) : Json :=
  .arr [.arr [.num m.m00, .num m.m01, .num m.m02],
        .arr [.num m.m10, .num m.m11, .num m.m12],
        .arr [.num m.m20, .num m.m21, .num m.m22]]

/-- Threads the Cereal pointer counter through a list comprehension: each
successfully emitted entry consumes one counter value; an exception aborts
the whole comprehension. -/
def mapCounter {α : Type} (f : Int → α → Except PyExc Json) :
    Int → List α → Except PyExc (List Json × Int)
  | cnt, [] => .ok ([], cnt)
  | cnt, x :: xs =>
    match f cnt x with
    | .error e => .error e
    | .ok j =>
      match mapCounter f (cnt + 1) xs with
      | .error e => .error e
      | .ok (js, c) => .ok (j :: js, c)

/-- `open_mvg_view` nested in `scene_to_openmvg` (`openmvg.py`): builds the
View entry around the current pointer id; `view.path.name`,
`view.intrinsic.id` and `view.pose.id` raise `AttributeError` when the
referenced attribute is still `None`, in that evaluation order. -/
def open_mvg_view (cnt : Int) (view : View) : Except PyExc Json :=
  match view.pathName with
  | .error e => .error e
  | .ok fname =>
    match view._intrinsic with
    | none => .error .attributeError
    | some intr =>
      match view._pose with
      | none => .error .attributeError
      | some pose =>
        .ok (.obj [("key", jOptInt view._id),
          ("value", .obj [
            ("polymorphic_id", .int 1073741824),
            ("ptr_wrapper", .obj [
              ("id", .int cnt),
              ("data", .obj [
                ("local_path", .str ""),
                ("filename", .str fname),
                ("width", jOptInt view._image_width),
                ("height", jOptInt view._image_height),
                ("id_view", jOptInt view._id),
                ("id_intrinsic", jOptInt intr._id),
                ("id_pose", jOptInt pose._id)])])])])

/-- The distortion entry appended by `open_mvg_intrinsic` when
`intrinsic.dist_params is not None`: the key comes from
`__OPENMVG_DIST_NAME_MAP`, which has no entry for `PINHOLE`, so a pinhole
with non-`None` `dist_params` raises `KeyError`. -/
def distoField (intrinsic : Intrinsic) : Except PyExc (List (String × Json)) :=
  match intrinsic._dist_params with
  | none => .ok []
  | some dp =>
    match intrinsic.itype with
    | .pinhole => .error .keyError
    | .radialK3 => .ok [("disto_k3", .arr (dp.map Json.num))]
    | .brownT2 => .ok [("disto_t2", .arr (dp.map Json.num))]

/-- `open_mvg_intrinsic` nested in `scene_to_openmvg`: the Intrinsic entry
around the current pointer id; `focal_length_as_pixels`, `ppx`, `ppy` are
read in the order the dict literal evaluates them and may raise. -/
def open_mvg_intrinsic (cnt : Int) (intrinsic : Intrinsic) : Except PyExc Json :=
  match intrinsic.focal_length_as_pixels with
  | .error e => .error e
  | .ok f =>
    match intrinsic.ppx with
    | .error e => .error e
    | .ok px =>
      match intrinsic.ppy with
      | .error e => .error e
      | .ok py =>
        match distoField intrinsic with
        | .error e => .error e
        | .ok extra =>
          .ok (.obj [("key", jOptInt intrinsic._id),
            ("value", .obj [
              ("polymorphic_id", .int 2147483649),
              ("polymorphic_name", .str intrinsic.itype.openmvgName),
              ("ptr_wrapper", .obj [
                ("id", .int cnt),
                ("data", .obj ([
                  ("width", jOptNum intrinsic._image_width),
                  ("height", jOptNum intrinsic._image_height),
                  ("focal_length", .num f),
                  ("principal_point", .arr [.num px, .num py])] ++ extra))])])])

/-- `open_mvg_extrinsic` nested in `scene_to_openmvg`: the Pose entry; no
pointer id is consumed; the rotation matrix is pre-multiplied by
`__OPENMVG_ROT_MAT` exactly when `convert_rotations` is set. -/
def open_mvg_extrinsic (convert_rotations : Bool) (extrinsic : Pose) : Json :=
  .obj [("key", jOptInt extrinsic._id),
    ("value", .obj [
      ("rotation", mat3ToJson
        (if convert_rotations then mat3Mul OPENMVG_ROT_MAT extrinsic.rotation
         else extrinsic.rotation)),
      ("center", .arr (extrinsic.center.map Json.num))])]

/-- `scene_to_openmvg` (`openmvg.py`): seeds the pointer counter at
2147483649, emits all Views in scene order, then all Intrinsics continuing
the same counter, then the extrinsics (which do not touch the counter), and
assembles the top-level OpenMVG dict. -/
def scene_to_openmvg (scene : SfMScene) (convert_rotations : Bool := true) :
    Except PyExc Json :=
  match mapCounter open_mvg_view 2147483649 scene.views with
  | .error e => .error e
  | .ok (vs, c1) =>
    match mapCounter open_mvg_intrinsic c1 scene.intrinsics with
    | .error e => .error e
    | .ok (ins, _) =>
      .ok (.obj [
        ("sfm_data_version", .str "0.3"),
        ("root_path", .str scene.rootStr),
        ("views", .arr vs),
        ("intrinsics", .arr ins),
        ("extrinsics", .arr (scene.poses.map (open_mvg_extrinsic convert_rotations))),
        ("structure", .arr []),
        ("control_points", .arr [])])

/-- `av_view` nested in `scene_to_alicevision`: every value stringified;
`view.pose.id` / `view.intrinsic.id` raise when the reference is `None`. -/
def av_view (view : View) : Except PyExc Json :=
  match view._pose with
  | none => .error .attributeError
  | some pose =>
    match view._intrinsic with
    | none => .error .attributeError
    | some intr =>
      .ok (.obj [
        ("viewID", pyStrOptInt view._id),
        ("poseID", pyStrOptInt pose._id),
        ("intrinsicID", pyStrOptInt intr._id),
        ("path", .str view.pathStr),
        ("width", pyStrOptInt view._image_width),
        ("height", pyStrOptInt view._image_height)])

/-- The `distortionParams` entry of `av_intrinsic`: appended whenever
`dist_params is not None`, each coefficient stringified. -/
def avDist (intrinsic : Intrinsic) : List (String × Json) :=
  match intrinsic._dist_params with
  | none => []
  | some dp => [("distortionParams", .arr (dp.map Json.strOfNum))]

/-- `av_intrinsic` nested in `scene_to_alicevision`. -/
def av_intrinsic (intrinsic : Intrinsic) : Except PyExc Json :=
  match intrinsic.focal_length_as_pixels with
  | .error e => .error e
  | .ok f =>
    match intrinsic.ppx with
    | .error e => .error e
    | .ok px =>
      match intrinsic.ppy with
      | .error e => .error e
      | .ok py =>
        .ok (.obj ([
          ("intrinsicID", pyStrOptInt intrinsic._id),
          ("width", pyStrOptNum intrinsic._image_width),
          ("height", pyStrOptNum intrinsic._image_height),
          ("serialNumber", pyStrOptInt intrinsic._id),
          ("type", .str intrinsic.itype.avName),
          ("initializationMode", .str "estimated"),
          ("pxInitialFocalLength", .strOfNum f),
          ("pxFocalLength", .strOfNum f),
          ("principalPoint", .arr [.strOfNum px, .strOfNum py]),
          ("locked", .str "0")] ++ avDist intrinsic))

/-- `av_pose` nested in `scene_to_alicevision` (and, verbatim, in the
legacy `sfm_export_alicevision`): the rotation is flattened with
`np.ravel(..., order='F')` and each element stringified; total (never raises). -/
def av_pose (pose : Pose) : Json :=
  .obj [("poseId", pyStrOptInt pose._id),
    ("pose", .obj [
      ("transform", .obj [
        ("rotation", .arr (pose.rotation.ravelF.map Json.strOfNum)),
        ("center", .arr (pose.center.map Json.strOfNum))]),
      ("locked", .str "0")])]

/-- `scene_to_alicevision` (`alicevision.py`). -/
def scene_to_alicevision (scene : SfMScene) : Except PyExc Json :=
  match scene.views.mapM av_view with
  | .error e => .error e
  | .ok vs =>
    match scene.intrinsics.mapM av_intrinsic with
    | .error e => .error e
    | .ok ins =>
      .ok (.obj [
        ("version", .arr [.str "1", .str "0", .str "0"]),
        ("views", .arr vs),
        ("intrinsics", .arr ins),
        ("poses", .arr (scene.poses.map av_pose))])

/-- A Python value compared against the members of the export-format enums
(`Format` of `io.py`, `SfMFormat` of `sfm.py`): the two members, or
`other` for any Python value that is neither (the dynamically typed
argument can be anything; such a value fails both `==` comparisons). -/
inductive FormatVal where
  | OPEN_MVG
  | ALICE_VISION
  | other
deriving DecidableEq, Repr

/-- `export_scene` (`io.py`): dispatches on the format, raising
`ValueError('Unknown scene format')` before anything is written when the
format is not recognized; on success the pair is (output path, JSON data
written to it). -/
def export_scene (path : String) (scene : SfMScene) (fmt : FormatVal)
    (convert_rotations : Bool := true) : Except PyExc (String × Json) :=
  match fmt with
  | .OPEN_MVG =>
    match scene_to_openmvg scene convert_rotations with
    | .error e => .error e
    | .ok d => .ok (path, d)
  | .ALICE_VISION =>
    match scene_to_alicevision scene with
    | .error e => .error e
    | .ok d => .ok (path, d)
  | .other => .error (.valueError "Unknown scene format")

/-- `open_mvg_view` nested in the legacy `sfm_export_openmvg` of `sfm.py`:
identical to the newer one except that the intrinsic and pose references
are the plain integer attributes `view.intrinsic_id` / `view.pose_id`
(reading either raises `AttributeError` when it was never assigned). -/
def legacyOpenMvgView (cnt : Int) (view : View) : Except PyExc Json :=
  match view.pathName with
  | .error e => .error e
  | .ok fname =>
    match view.intrinsic_id_read with
    | .error e => .error e
    | .ok iid =>
      match view.pose_id_read with
      | .error e => .error e
      | .ok pid =>
        .ok (.obj [("key", jOptInt view._id),
          ("value", .obj [
            ("polymorphic_id", .int 1073741824),
            ("ptr_wrapper", .obj [
              ("id", .int cnt),
              ("data", .obj [
                ("local_path", .str ""),
                ("filename", .str fname),
                ("width", jOptInt view._image_width),
                ("height", jOptInt view._image_height),
                ("id_view", jOptInt view._id),
                ("id_intrinsic", .int iid),
                ("id_pose", .int pid)])])])])

/-- The legacy distortion entry of `sfm.py`'s `open_mvg_intrinsic`: only the
subclasses set a dist key, and the entry is skipped when either the key or
the value is `None` (no `KeyError` path here, unlike `openmvg.py`). -/
def legacyDisto (intrinsic : Intrinsic) : List (String × Json) :=
  match intrinsic.itype, intrinsic._dist_params with
  | .radialK3, some dp => [("disto_k3", .arr (dp.map Json.num))]
  | .brownT2, some dp => [("disto_t2", .arr (dp.map Json.num))]
  | _, _ => []

/-- `open_mvg_intrinsic` nested in the legacy `sfm_export_openmvg`. -/
def legacyOpenMvgIntrinsic (cnt : Int) (intrinsic : Intrinsic) : Except PyExc Json :=
  match intrinsic.focal_length_as_pixels with
  | .error e => .error e
  | .ok f =>
    match intrinsic.ppx with
    | .error e => .error e
    | .ok px =>
      match intrinsic.ppy with
      | .error e => .error e
      | .ok py =>
        .ok (.obj [("key", jOptInt intrinsic._id),
          ("value", .obj [
            ("polymorphic_id", .int 2147483649),
            ("polymorphic_name", .str intrinsic.itype.openmvgName),
            ("ptr_wrapper", .obj [
              ("id", .int cnt),
              ("data", .obj ([
                ("width", jOptNum intrinsic._image_width),
                ("height", jOptNum intrinsic._image_height),
                ("focal_length", .num f),
                ("principal_point", .arr [.num px, .num py])] ++ legacyDisto intrinsic))])])])

/-- `open_mvg_extrinsic` nested in the legacy `sfm_export_openmvg`: its body
references the module-level name `__PGS_TO_OPENMVG_ROT_MAT`, which is
defined nowhere in `sfm.py`, so calling it raises `NameError`. -/
def legacyOpenMvgExtrinsic (_extrinsic : Pose) : Except PyExc Json :=
  .error .nameError

/-- The legacy `sfm_export_openmvg` of `sfm.py`: same counter scheme as
`scene_to_openmvg`; the pair is (output path, JSON written). -/
def sfm_export_openmvg (path : String) (sfm : SfMScene) : Except PyExc (String × Json) :=
  match mapCounter legacyOpenMvgView 2147483649 sfm.views with
  | .error e => .error e
  | .ok (vs, c1) =>
    match mapCounter legacyOpenMvgIntrinsic c1 sfm.intrinsics with
    | .error e => .error e
    | .ok (ins, _) =>
      match sfm.poses.mapM legacyOpenMvgExtrinsic with
      | .error e => .error e
      | .ok exs =>
        .ok (path, .obj [
          ("sfm_data_version", .str "0.3"),
          ("root_path", .str sfm.rootStr),
          ("views", .arr vs),
          ("intrinsics", .arr ins),
          ("extrinsics", .arr exs),
          ("structure", .arr []),
          ("control_points", .arr [])])

/-- `av_view` nested in the legacy `sfm_export_alicevision`: uses the plain
id attributes `view.pose_id` / `view.intrinsic_id`. -/
def legacyAvView (view : View) : Except PyExc Json :=
  match view.pose_id_read with
  | .error e => .error e
  | .ok pid =>
    match view.intrinsic_id_read with
    | .error e => .error e
    | .ok iid =>
      .ok (.obj [
        ("viewID", pyStrOptInt view._id),
        ("poseID", .str (toString pid)),
        ("intrinsicID", .str (toString iid)),
        ("path", .str view.pathStr),
        ("width", pyStrOptInt view._image_width),
        ("height", pyStrOptInt view._image_height)])

/-- The legacy AliceVision distortion list: computed before the dict; only
`IntrinsicRadialK3` is handled (`type(intrinsic) is IntrinsicRadialK3`),
and iterating a `None` `dist_params` raises `TypeError`. -/
def legacyAvDist (intrinsic : Intrinsic) : Except PyExc (List (String × Json)) :=
  match intrinsic.itype with
  | .radialK3 =>
    match intrinsic._dist_params with
    | none => .error .typeError
    | some dp => .ok [("distortionParams", .arr (dp.map Json.strOfNum))]
  | _ => .ok []

/-- `av_intrinsic` nested in the legacy `sfm_export_alicevision`. -/
def legacyAvIntrinsic (intrinsic : Intrinsic) : Except PyExc Json :=
  match legacyAvDist intrinsic with
  | .error e => .error e
  | .ok extra =>
    match intrinsic.focal_length_as_pixels with
    | .error e => .error e
    | .ok f =>
      match intrinsic.ppx with
      | .error e => .error e
      | .ok px =>
        match intrinsic.ppy with
        | .error e => .error e
        | .ok py =>
          .ok (.obj ([
            ("intrinsicID", pyStrOptInt intrinsic._id),
            ("width", pyStrOptNum intrinsic._image_width),
            ("height", pyStrOptNum intrinsic._image_height),
            ("serialNumber", pyStrOptInt intrinsic._id),
            ("type", .str intrinsic.itype.avName),
            ("initializationMode", .str "estimated"),
            ("pxInitialFocalLength", .strOfNum f),
            ("pxFocalLength", .strOfNum f),
            ("principalPoint", .arr [.strOfNum px, .strOfNum py]),
            ("locked", .str "0")] ++ extra))

/-- The legacy `sfm_export_alicevision` of `sfm.py` (its nested `av_pose`
is textually identical to `alicevision.py`'s, so `av_pose` is reused). -/
def sfm_export_alicevision (path : String) (sfm : SfMScene) : Except PyExc (String × Json) :=
  match sfm.views.mapM legacyAvView with
  | .error e => .error e
  | .ok vs =>
    match sfm.intrinsics.mapM legacyAvIntrinsic with
    | .error e => .error e
    | .ok ins =>
      .ok (path, .obj [
        ("version", .arr [.str "1", .str "0", .str "0"]),
        ("views", .arr vs),
        ("intrinsics", .arr ins),
        ("poses", .arr (sfm.poses.map av_pose))])

/-- `sfm_export` of `sfm.py`: `if fmt == OPEN_MVG ... elif fmt ==
ALICE_VISION ...` with no `else` branch, so any other format value makes
the function return `None` silently, writing nothing and raising nothing. -/
def sfm_export (path : String) (sfm : SfMScene) (fmt : FormatVal) :
    Except PyExc (Option (String × Json)) :=
  match fmt with
  | .OPEN_MVG =>
    match sfm_export_openmvg path sfm with
    | .error e => .error e
    | .ok r => .ok (some r)
  | .ALICE_VISION =>
    match sfm_export_alicevision path sfm with
    | .error e => .error e
    | .ok r => .ok (some r)
  | .other => .ok none

/-! ## Claim theorems -/

/-- C10: on a freshly constructed `Intrinsic` with no fields set, reading
`ppx`, `ppy` or `focal_length_as_pixels` raises `TypeError` (the fallback
computation needs the source fields), while `width`, `height`,
`focal_length`, `sensor_width` and `dist_params` on a base `Intrinsic`
read as `None` without error. -/
theorem claim_C10_fresh_intrinsic_reads :
    Intrinsic.new.ppx = .error .typeError
  ∧ Intrinsic.new.ppy = .error .typeError
  ∧ Intrinsic.new.focal_length_as_pixels = .error .typeError
  ∧ IntrinsicRadialK3.new.ppx = .error .typeError
  ∧ IntrinsicRadialK3.new.focal_length_as_pixels = .error .typeError
  ∧ IntrinsicBrownT2.new.ppy = .error .typeError
  ∧ Intrinsic.new.width = none
  ∧ Intrinsic.new.height = none
  ∧ Intrinsic.new.focal_length = none
  ∧ Intrinsic.new.sensor_width = none
  ∧ Intrinsic.new.dist_params = none :=
  ⟨rfl, rfl, rfl, rfl, rfl, rfl, rfl, rfl, rfl, rfl, rfl⟩

/-- C6: assigning to `dist_params` keeps only the first 3 coefficients on a
`RadialK3` and the first 5 on a `BrownT2`; a shorter list is stored as-is
with no padding; before any assignment the zero-filled construction default
is read back. -/
theorem claim_C6_dist_params_truncation (i : Intrinsic) (p : List ℚ) :
    (i.itype = .radialK3 →
      i.dist_params_set p = .ok { i with _dist_params := some (p.take 3) })
  ∧ (i.itype = .brownT2 →
      i.dist_params_set p = .ok { i with _dist_params := some (p.take 5) })
  ∧ (i.itype = .radialK3 → p.length ≤ 3 →
      i.dist_params_set p = .ok { i with _dist_params := some p })
  ∧ (i.itype = .brownT2 → p.length ≤ 5 →
      i.dist_params_set p = .ok { i with _dist_params := some p })
  ∧ IntrinsicRadialK3.new.dist_params = some [0, 0, 0]
  ∧ IntrinsicBrownT2.new.dist_params = some [0, 0, 0, 0, 0] := by
  refine ⟨fun h => ?_, fun h => ?_, fun h hl => ?_, fun h hl => ?_, rfl, rfl⟩ <;>
    simp [Intrinsic.dist_params_set, h, List.take_of_length_le, *]

/-- C6 witness: a 4-element list assigned to a fresh `RadialK3` stores its
first 3 elements; a 2-element list is stored unchanged. -/
theorem claim_C6_dist_params_truncation_witness :
    IntrinsicRadialK3.new.dist_params_set [0, 1, 2, 3]
      = .ok { IntrinsicRadialK3.new with _dist_params := some [0, 1, 2] }
  ∧ IntrinsicRadialK3.new.dist_params_set [0, 1]
      = .ok { IntrinsicRadialK3.new with _dist_params := some [0, 1] }
  ∧ IntrinsicBrownT2.new.dist_params_set [0, 1, 2, 3, 4, 5]
      = .ok { IntrinsicBrownT2.new with _dist_params := some [0, 1, 2, 3, 4] } :=
  ⟨(claim_C6_dist_params_truncation IntrinsicRadialK3.new [0, 1, 2, 3]).1 rfl,
   (claim_C6_dist_params_truncation IntrinsicRadialK3.new [0, 1]).2.2.1 rfl (by decide),
   (claim_C6_dist_params_truncation IntrinsicBrownT2.new [0, 1, 2, 3, 4, 5]).2.1 rfl⟩

/-- C5: `ppx`/`ppy` fall back to `width/2`, `height/2`, recomputed from the
current width/height at every read until explicitly set, after which the
explicit value wins regardless of later width/height changes; likewise
`focal_length_as_pixels` falls back to
`max(width, height) * focal_length / sensor_width` until overridden, after
which the override is returned verbatim. -/
theorem claim_C5_derived_defaults (i : Intrinsic) (w hq fl sw x g w2 h2 : ℚ) :
    (i._ppx = none → i.width = some w → i.ppx = .ok (w / 2))
  ∧ (i._ppx = none → (i.width_set w2).ppx = .ok (w2 / 2))
  ∧ (((i.ppx_set x).width_set w2).ppx = .ok x)
  ∧ (i._ppy = none → i.height = some hq → i.ppy = .ok (hq / 2))
  ∧ (i._ppy = none → (i.height_set h2).ppy = .ok (h2 / 2))
  ∧ (((i.ppy_set x).height_set h2).ppy = .ok x)
  ∧ (i._focal_length_as_pixels = none → i.width = some w → i.height = some hq →
      i.focal_length = some fl → i.sensor_width = some sw → sw ≠ 0 →
      i.focal_length_as_pixels = .ok (max w hq * fl / sw))
  ∧ ((((i.focal_length_as_pixels_set g).width_set w2).sensor_width_set sw).focal_length_as_pixels
      = .ok g) := by
  refine ⟨fun h1 h2 => ?_, fun h1 => ?_, ?_, fun h1 h2 => ?_, fun h1 => ?_, ?_,
    fun h1 h2 h3 h4 h5 h6 => ?_, ?_⟩ <;>
    simp_all [Intrinsic.ppx, Intrinsic.ppy, Intrinsic.focal_length_as_pixels,
      Intrinsic.width, Intrinsic.height, Intrinsic.focal_length, Intrinsic.sensor_width,
      Intrinsic.width_set, Intrinsic.height_set, Intrinsic.ppx_set, Intrinsic.ppy_set,
      Intrinsic.sensor_width_set, Intrinsic.focal_length_as_pixels_set]

/-- C5 witness: a concrete intrinsic with `width=100`, `height=80`,
`focal_length=10`, `sensor_width=5` and no overrides. -/
theorem claim_C5_derived_defaults_witness :
    ({ itype := .pinhole, _image_width := some 100, _image_height := some 80,
       _focal_length := some 10, _sensor_width := some 5 } : Intrinsic).ppx = .ok (100 / 2)
  ∧ (({ itype := .pinhole, _image_width := some 100, _image_height := some 80,
        _focal_length := some 10, _sensor_width := some 5 } : Intrinsic).width_set 30).ppx
      = .ok (30 / 2)
  ∧ ((({ itype := .pinhole, _image_width := some 100, _image_height := some 80,
         _focal_length := some 10, _sensor_width := some 5 } : Intrinsic).ppx_set 7).width_set 30).ppx
      = .ok 7
  ∧ ({ itype := .pinhole, _image_width := some 100, _image_height := some 80,
       _focal_length := some 10, _sensor_width := some 5 } : Intrinsic).focal_length_as_pixels
      = .ok (max 100 80 * 10 / 5)
  ∧ (((({ itype := .pinhole, _image_width := some 100, _image_height := some 80,
          _focal_length := some 10, _sensor_width := some 5 } : Intrinsic).focal_length_as_pixels_set 9).width_set 1).sensor_width_set 2).focal_length_as_pixels
      = .ok 9 := by
  have h := claim_C5_derived_defaults
    { itype := .pinhole, _image_width := some 100, _image_height := some 80,
      _focal_length := some 10, _sensor_width := some 5 } 100 80 10 5 7 9 30 40
  exact ⟨h.1 rfl rfl, h.2.1 rfl, h.2.2.1,
    h.2.2.2.2.2.2.1 rfl rfl rfl rfl rfl (by norm_num),
    (claim_C5_derived_defaults
      { itype := .pinhole, _image_width := some 100, _image_height := some 80,
        _focal_length := some 10, _sensor_width := some 5 } 100 80 10 2 7 9 1 40).2.2.2.2.2.2.2⟩

/-- C3: the OpenMVG extrinsic entry carries the pose rotation pre-multiplied
by the fixed matrix diag(-1, 1, -1) when `convert_rotations` is on, the
rotation unchanged when it is off (identity exports as
`[[-1,0,0],[0,1,0],[0,0,-1]]` resp. the identity), and the center verbatim. -/
theorem claim_C3_openmvg_rotation_conversion (p : Pose) (b : Bool) :
    (jGet "value" (open_mvg_extrinsic true p)).bind (jGet "rotation")
      = some (mat3ToJson (mat3Mul OPENMVG_ROT_MAT p.rotation))
  ∧ (jGet "value" (open_mvg_extrinsic false p)).bind (jGet "rotation")
      = some (mat3ToJson p.rotation)
  ∧ mat3Mul OPENMVG_ROT_MAT p.rotation =
      ⟨-p.rotation.m00, -p.rotation.m01, -p.rotation.m02,
        p.rotation.m10, p.rotation.m11, p.rotation.m12,
        -p.rotation.m20, -p.rotation.m21, -p.rotation.m22⟩
  ∧ mat3Mul OPENMVG_ROT_MAT mat3Id = ⟨-1, 0, 0, 0, 1, 0, 0, 0, -1⟩
  ∧ (jGet "value" (open_mvg_extrinsic b p)).bind (jGet "center")
      = some (.arr (p.center.map Json.num)) := by
  refine ⟨rfl, rfl, ?_,
    by simp only [mat3Mul, OPENMVG_ROT_MAT, mat3Id, Mat3.mk.injEq]; norm_num,
    by cases b <;> rfl⟩
  simp only [mat3Mul, OPENMVG_ROT_MAT, Mat3.mk.injEq]
  refine ⟨by ring, by ring, by ring, by ring, by ring, by ring, by ring, by ring, by ring⟩

/-- C4: the AliceVision pose entry flattens the rotation matrix in
column-major order -- `[R00,R10,R20,R01,R11,R21,R02,R12,R22]` -- each
element as its decimal string rendering, and stringifies the center. -/
theorem claim_C4_alicevision_column_major (p : Pose) :
    ((jGet "pose" (av_pose p)).bind (jGet "transform")).bind (jGet "rotation")
      = some (.arr ([p.rotation.m00, p.rotation.m10, p.rotation.m20,
                     p.rotation.m01, p.rotation.m11, p.rotation.m21,
                     p.rotation.m02, p.rotation.m12, p.rotation.m22].map Json.strOfNum))
  ∧ ((jGet "pose" (av_pose p)).bind (jGet "transform")).bind (jGet "center")
      = some (.arr (p.center.map Json.strOfNum)) :=
  ⟨rfl, rfl⟩

/-- C9 (amended): `add_view` assigns `view.id = len(views)`, appends the
id-assigned view, and returns the assigned id as an int -- not the `View`
instance; `add_pose` likewise appends unconditionally and returns the
sequential id. -/
theorem claim_C9_add_returns_id (s : SfMScene) (v : View) (p : Pose) :
    (s.add_view v).2.1._id = some (s.views.length : Int)
  ∧ (s.add_view v).1.views = s.views ++ [(s.add_view v).2.1]
  ∧ (s.add_view v).2.2 = PyVal.intV (s.views.length : Int)
  ∧ (s.add_pose p).2.1._id = some (s.poses.length : Int)
  ∧ (s.add_pose p).1.poses = s.poses ++ [(s.add_pose p).2.1]
  ∧ (s.add_pose p).2.2 = PyVal.intV (s.poses.length : Int) :=
  ⟨rfl, rfl, rfl, rfl, rfl, rfl⟩

/-- C9 counterexample: on a fresh scene and a fresh view/pose, the value
returned by `add_view` / `add_pose` is the integer id, not the entity
instance that was passed in (neither before nor after the id assignment). -/
theorem claim_C9_counterexample :
    (SfMScene.new.add_view View.new).2.2 ≠ PyVal.viewObj (SfMScene.new.add_view View.new).2.1
  ∧ (SfMScene.new.add_view View.new).2.2 ≠ PyVal.viewObj View.new
  ∧ (SfMScene.new.add_pose Pose.new).2.2 ≠ PyVal.poseObj (SfMScene.new.add_pose Pose.new).2.1
  ∧ (SfMScene.new.add_view View.new).2.2 = PyVal.intV 0 := by
  refine ⟨by decide, by decide, by decide, rfl⟩

/-- C7 (amended): for a format value outside the two enum members,
`export_scene` of `io.py` raises `ValueError('Unknown scene format')`
before anything is written, while the legacy `sfm_export` of `sfm.py`
returns silently with no error; in both cases no output is produced. -/
theorem claim_C7_unknown_format (path : String) (s : SfMScene) (b : Bool) :
    export_scene path s .other b = .error (.valueError "Unknown scene format")
  ∧ sfm_export path s .other = .ok none :=
  ⟨rfl, rfl⟩

/-- C7 counterexample: the legacy export entry point `sfm_export` does not
fail on an unknown format -- it succeeds, returning Python `None` and
writing nothing, contradicting the claim that every export entry point
fails with an `UnknownFormat` error. -/
theorem claim_C7_counterexample :
    sfm_export "out.json" SfMScene.new .other = .ok none
  ∧ isOkE (sfm_export "out.json" SfMScene.new FormatVal.other) = true :=
  ⟨rfl, rfl⟩

/-! ## C2: intrinsic deduplication -/

/-- Value equality of two intrinsics in the sense of the claim: same
variant; equal `width`, `height`, `ppx`, `ppy`, `focal_length_as_pixels`
(the derived properties must be readable, i.e. not raise); equal
`dist_params` for the distortion variants. `id` is never considered. -/
def ValueEq (a b : Intrinsic) : Prop :=
  a.itype = b.itype ∧ a.width = b.width ∧ a.height = b.height
  ∧ b.ppx = a.ppx ∧ isOkE a.ppx = true
  ∧ b.ppy = a.ppy ∧ isOkE a.ppy = true
  ∧ b.focal_length_as_pixels = a.focal_length_as_pixels
  ∧ isOkE a.focal_length_as_pixels = true
  ∧ (a.itype ≠ IntrinsicType.pinhole → a._dist_params = b._dist_params)

instance (a b : Intrinsic) : Decidable (ValueEq a b) := by
  unfold ValueEq; infer_instance

lemma valueEq_self {a b : Intrinsic} (h : ValueEq a b) : ValueEq a a := by
  obtain ⟨-, -, -, -, hpo, -, hyo, -, hfo, -⟩ := h
  exact ⟨rfl, rfl, rfl, rfl, hpo, rfl, hyo, rfl, hfo, fun _ => rfl⟩

/-- `__eq__` never reads the `id` attribute. -/
lemma eq_id_irrel (a b : Intrinsic) (n : Option Int) :
    Intrinsic.eq a { b with _id := n } = Intrinsic.eq a b := rfl

lemma baseEq_congr {a b : Intrinsic} (h : ValueEq a b) (x : Intrinsic) :
    Intrinsic.baseEq b x = Intrinsic.baseEq a x := by
  obtain ⟨hty, hw, hh, hpx, -, hpy, -, hfl, -, -⟩ := h
  unfold Intrinsic.baseEq
  simp only [← hty, ← hw, ← hh, hpx, hpy, hfl]

lemma eq_congr {a b : Intrinsic} (h : ValueEq a b) (x : Intrinsic) :
    Intrinsic.eq b x = Intrinsic.eq a x := by
  have hb := baseEq_congr h x
  obtain ⟨hty, -, -, -, -, -, -, -, -, hd⟩ := h
  unfold Intrinsic.eq
  cases hai : a.itype
  case pinhole =>
    have hb' : b.itype = IntrinsicType.pinhole := by rw [← hty]; exact hai
    rw [hb']
    exact hb
  case radialK3 =>
    have hb' : b.itype = IntrinsicType.radialK3 := by rw [← hty]; exact hai
    have hd' : a._dist_params = b._dist_params := hd (by rw [hai]; decide)
    rw [hb', hb, ← hd']
  case brownT2 =>
    have hb' : b.itype = IntrinsicType.brownT2 := by rw [← hty]; exact hai
    have hd' : a._dist_params = b._dist_params := hd (by rw [hai]; decide)
    rw [hb', hb, ← hd']

lemma baseEq_ok_true {a b : Intrinsic} (h : ValueEq a b) :
    Intrinsic.baseEq b a = .ok true := by
  obtain ⟨hty, hw, hh, hpx, hpo, hpy, hyo, hfl, hfo, -⟩ := h
  obtain ⟨pv, hpv⟩ : ∃ v, a.ppx = .ok v := by
    cases hp : a.ppx
    · rw [hp] at hpo; simp [isOkE] at hpo
    · exact ⟨_, rfl⟩
  obtain ⟨yv, hyv⟩ : ∃ v, a.ppy = .ok v := by
    cases hp : a.ppy
    · rw [hp] at hyo; simp [isOkE] at hyo
    · exact ⟨_, rfl⟩
  obtain ⟨fv, hfv⟩ : ∃ v, a.focal_length_as_pixels = .ok v := by
    cases hp : a.focal_length_as_pixels
    · rw [hp] at hfo; simp [isOkE] at hfo
    · exact ⟨_, rfl⟩
  unfold Intrinsic.baseEq
  simp only [← hty, ← hw, ← hh, hpx, hpy, hfl, hpv, hyv, hfv]
  simp

lemma eq_ok_true_of_valueEq {a b : Intrinsic} (h : ValueEq a b) (n : Option Int) :
    Intrinsic.eq b { a with _id := n } = .ok true := by
  rw [eq_id_irrel]
  have hb := baseEq_ok_true h
  obtain ⟨hty, -, -, -, -, -, -, -, -, hd⟩ := h
  unfold Intrinsic.eq
  cases hai : a.itype
  case pinhole =>
    have hb' : b.itype = IntrinsicType.pinhole := by rw [← hty]; exact hai
    rw [hb']
    exact hb
  case radialK3 =>
    have hb' : b.itype = IntrinsicType.radialK3 := by rw [← hty]; exact hai
    have hd' : a._dist_params = b._dist_params := hd (by rw [hai]; decide)
    rw [hb', hb, ← hd']
    simp
  case brownT2 =>
    have hb' : b.itype = IntrinsicType.brownT2 := by rw [← hty]; exact hai
    have hd' : a._dist_params = b._dist_params := hd (by rw [hai]; decide)
    rw [hb', hb, ← hd']
    simp

lemma findEq_congr {a b : Intrinsic} (h : ∀ x, Intrinsic.eq b x = Intrinsic.eq a x) :
    ∀ l, findEq b l = findEq a l := by
  intro l
  induction l with
  | nil => rfl
  | cons x xs ih => unfold findEq; rw [h x, ih]

lemma findEq_append_of_none {i : Intrinsic} {l : List Intrinsic}
    (h : findEq i l = .ok none) (l2 : List Intrinsic) :
    findEq i (l ++ l2) = findEq i l2 := by
  induction l with
  | nil => rfl
  | cons x xs ih =>
    unfold findEq at h
    cases he : Intrinsic.eq i x <;> rw [he] at h
    · exact absurd h (by simp)
    case ok bv =>
      cases bv
      · show (match Intrinsic.eq i x with
            | .error e => .error e
            | .ok true => .ok (some x)
            | .ok false => findEq i (xs ++ l2)) = findEq i l2
        rw [he]
        exact ih h
      · exact absurd h (by simp)

/-- C2: after `add_intrinsic(a)` succeeded, `add_intrinsic(b)` for any
value-equal `b` returns the very same id and leaves the scene (in
particular the length of `intrinsics`) unchanged; an intrinsic for which
the scan finds no value-equal entry is appended with id
`len(intrinsics)`. -/
theorem claim_C2_intrinsic_dedup (s0 s1 : SfMScene) (a b iNew : Intrinsic) (r1 : PyVal)
    (hab : ValueEq a b) (h1 : s0.add_intrinsic a = .ok (s1, r1))
    (hnew : findEq iNew s1.intrinsics = .ok none) :
    s1.add_intrinsic b = .ok (s1, r1)
  ∧ s1.add_intrinsic iNew = .ok
      ({ s1 with intrinsics := s1.intrinsics ++
          [{ iNew with _id := some (s1.intrinsics.length : Int) }] },
       .intV (s1.intrinsics.length : Int)) := by
  constructor
  case right =>
    unfold SfMScene.add_intrinsic
    rw [hnew]
  case left =>
    have hcong := eq_congr hab
    unfold SfMScene.add_intrinsic at h1 ⊢
    cases hf : findEq a s0.intrinsics <;> rw [hf] at h1
    · exact absurd h1 (by simp)
    case ok o =>
      cases o with
      | some ex =>
        simp only [Except.ok.injEq, Prod.mk.injEq] at h1
        obtain ⟨rfl, rfl⟩ := h1
        rw [findEq_congr hcong, hf]
      | none =>
        simp only [Except.ok.injEq, Prod.mk.injEq] at h1
        obtain ⟨rfl, rfl⟩ := h1
        rw [findEq_congr hcong,
          findEq_append_of_none hf]
        unfold findEq
        rw [eq_ok_true_of_valueEq (valueEq_self hab)]
        rfl

/-- A concrete radial-K3 intrinsic with explicit principal point and focal
override (all comparisons are between literals). -/
def intrA : Intrinsic :=
  { itype := .radialK3, _image_width := some 100, _image_height := some 100,
    _ppx := some 50, _ppy := some 50, _focal_length_as_pixels := some 100,
    _dist_params := some [0, 0, 0] }

/-- A second intrinsic that is not value-equal to `intrA` (different width). -/
def intrB : Intrinsic :=
  { intrA with _image_width := some 200, _ppx := some 100 }

/-- The scene after `intrA` was added to a fresh scene. -/
def sceneDedup : SfMScene :=
  { SfMScene.new with intrinsics := [{ intrA with _id := some 0 }] }

/-- C2 witness: adding a value-equal copy of `intrA` to `sceneDedup`
returns id 0 again without growing the list, while the non-equal `intrB`
is appended with id 1. -/
theorem claim_C2_intrinsic_dedup_witness :
    sceneDedup.add_intrinsic intrA = .ok (sceneDedup, .intV 0)
  ∧ sceneDedup.add_intrinsic intrB = .ok
      ({ sceneDedup with intrinsics := sceneDedup.intrinsics ++
          [{ intrB with _id := some (sceneDedup.intrinsics.length : Int) }] },
       .intV (sceneDedup.intrinsics.length : Int)) :=
  claim_C2_intrinsic_dedup SfMScene.new sceneDedup intrA intrA intrB (.intV 0)
    (by decide) (by rfl) (by rfl)

/-! ## C8: sequential View / Pose ids -/

/-- One call against the scene: the three mutators of `SfMScene`. -/
inductive SceneOp where
  | addView (v : View)
  | addIntrinsic (i : Intrinsic)
  | addPose (p : Pose)

/-- Runs a sequence of `add_*` calls left to right; an exception raised by
`add_intrinsic`'s equality scan aborts the remaining calls. -/
def runOps (s : SfMScene) : List SceneOp → Except PyExc SfMScene
  | [] => .ok s
  | .addView v :: rest => runOps (s.add_view v).1 rest
  | .addPose p :: rest => runOps (s.add_pose p).1 rest
  | .addIntrinsic i :: rest =>
    match s.add_intrinsic i with
    | .error e => .error e
    | .ok (s2, _) => runOps s2 rest

/-- Number of `add_view` calls in the sequence. -/
def countViews : List SceneOp → ℕ
  | [] => 0
  | .addView _ :: rest => countViews rest + 1
  | _ :: rest => countViews rest

/-- Number of `add_pose` calls in the sequence. -/
def countPoses : List SceneOp → ℕ
  | [] => 0
  | .addPose _ :: rest => countPoses rest + 1
  | _ :: rest => countPoses rest

/-- The views carry ids `n, n+1, n+2, ...` in list order. -/
def viewIdsFrom : ℕ → List View → Prop
  | _, [] => True
  | n, v :: vs => v._id = some (n : Int) ∧ viewIdsFrom (n + 1) vs

/-- The poses carry ids `n, n+1, n+2, ...` in list order. -/
def poseIdsFrom : ℕ → List Pose → Prop
  | _, [] => True
  | n, p :: ps => p._id = some (n : Int) ∧ poseIdsFrom (n + 1) ps

lemma add_intrinsic_preserves {s s2 : SfMScene} {i : Intrinsic} {r : PyVal}
    (h : s.add_intrinsic i = .ok (s2, r)) : s2.views = s.views ∧ s2.poses = s.poses := by
  unfold SfMScene.add_intrinsic at h
  cases hf : findEq i s.intrinsics <;> rw [hf] at h
  · exact absurd h (by simp)
  case ok o =>
    cases o <;> simp only [Except.ok.injEq, Prod.mk.injEq] at h <;>
      obtain ⟨rfl, -⟩ := h <;> exact ⟨rfl, rfl⟩

/-- Core invariant: running any op sequence from any scene keeps the
existing views/poses (same objects, same positions), appends the new ones
with consecutive ids continuing from the current lengths, and grows the
lengths by exactly the number of corresponding calls. -/
lemma runOps_spec (ops : List SceneOp) : ∀ s s' : SfMScene, runOps s ops = .ok s' →
    s'.views.take s.views.length = s.views
  ∧ viewIdsFrom s.views.length (s'.views.drop s.views.length)
  ∧ s'.views.length = s.views.length + countViews ops
  ∧ s'.poses.take s.poses.length = s.poses
  ∧ poseIdsFrom s.poses.length (s'.poses.drop s.poses.length)
  ∧ s'.poses.length = s.poses.length + countPoses ops := by
  induction ops with
  | nil =>
    intro s s' h
    injection h with h
    subst h
    simp [viewIdsFrom, poseIdsFrom, countViews, countPoses]
  | cons op rest ih =>
    intro s s' h
    cases op with
    | addView v =>
      obtain ⟨ht, hi, hl, hpt, hpi, hpl⟩ := ih _ _ h
      dsimp only [SfMScene.add_view] at ht hi hl hpt hpi hpl
      have hlenA : (s.views ++ [{ v with _id := some (s.views.length : Int) }]).length
          = s.views.length + 1 := by simp
      rw [hlenA] at ht hi hl
      have hsplit : (s.views ++ [{ v with _id := some (s.views.length : Int) }])
          ++ s'.views.drop (s.views.length + 1) = s'.views := by
        rw [← ht]; exact List.take_append_drop _ _
      rw [List.append_assoc] at hsplit
      refine ⟨?_, ?_, ?_, hpt, hpi, ?_⟩
      · rw [← hsplit, List.take_left]
      · rw [← hsplit, List.drop_left]
        exact ⟨rfl, hi⟩
      · rw [hl]
        have hcv : countViews (SceneOp.addView v :: rest) = countViews rest + 1 := rfl
        omega
      · rw [hpl]
        rfl
    | addPose p =>
      obtain ⟨ht, hi, hl, hpt, hpi, hpl⟩ := ih _ _ h
      dsimp only [SfMScene.add_pose] at ht hi hl hpt hpi hpl
      have hlenA : (s.poses ++ [{ p with _id := some (s.poses.length : Int) }]).length
          = s.poses.length + 1 := by simp
      rw [hlenA] at hpt hpi hpl
      have hsplit : (s.poses ++ [{ p with _id := some (s.poses.length : Int) }])
          ++ s'.poses.drop (s.poses.length + 1) = s'.poses := by
        rw [← hpt]; exact List.take_append_drop _ _
      rw [List.append_assoc] at hsplit
      refine ⟨ht, hi, ?_, ?_, ?_, ?_⟩
      · rw [hl]
        rfl
      · rw [← hsplit, List.take_left]
      · rw [← hsplit, List.drop_left]
        exact ⟨rfl, hpi⟩
      · rw [hpl]
        have hcp : countPoses (SceneOp.addPose p :: rest) = countPoses rest + 1 := rfl
        omega
    | addIntrinsic i =>
      unfold runOps at h
      cases hai : s.add_intrinsic i <;> rw [hai] at h
      · exact absurd h (by simp)
      case ok pr =>
        obtain ⟨s2, r⟩ := pr
        obtain ⟨hv2, hp2⟩ := add_intrinsic_preserves hai
        obtain ⟨ht, hi, hl, hpt, hpi, hpl⟩ := ih _ _ h
        rw [hv2] at ht hi hl
        rw [hp2] at hpt hpi hpl
        exact ⟨ht, hi, by rw [hl]; rfl, hpt, hpi, by rw [hpl]; rfl⟩

/-- C8: after any successful sequence of `add_view` / `add_intrinsic` /
`add_pose` calls on a fresh scene, the View ids and Pose ids are exactly
`0, 1, 2, ...` in insertion order with no deduplication (their counts equal
the numbers of calls), and no later sequence of calls renumbers or moves
the already-stored views or poses. -/
theorem claim_C8_sequential_ids (ops more : List SceneOp) (s s' : SfMScene)
    (h : runOps SfMScene.new ops = .ok s) (h2 : runOps s more = .ok s') :
    viewIdsFrom 0 s.views
  ∧ poseIdsFrom 0 s.poses
  ∧ s.views.length = countViews ops
  ∧ s.poses.length = countPoses ops
  ∧ s'.views.take s.views.length = s.views
  ∧ s'.poses.take s.poses.length = s.poses := by
  obtain ⟨-, hi, hl, -, hpi, hpl⟩ := runOps_spec ops _ _ h
  obtain ⟨ht2, -, -, hpt2, -, -⟩ := runOps_spec more _ _ h2
  have hv0 : SfMScene.new.views.length = 0 := rfl
  have hp0 : SfMScene.new.poses.length = 0 := rfl
  rw [hv0] at hi hl
  rw [hp0] at hpi hpl
  rw [List.drop_zero] at hi hpi
  exact ⟨hi, hpi, by omega, by omega, ht2, hpt2⟩

/-- A demonstration op sequence: two views, one intrinsic, two poses. -/
def opsDemo : List SceneOp :=
  [.addView View.new, .addPose Pose.new, .addView View.new,
   .addIntrinsic IntrinsicRadialK3.new, .addPose Pose.new]

/-- Follow-up calls for the stability part of C8. -/
def moreDemo : List SceneOp := [.addPose Pose.new, .addView View.new]

/-- The scene after `opsDemo` ran on a fresh scene. -/
def sceneDemo : SfMScene := (runOps SfMScene.new opsDemo).toOption.getD SfMScene.new

/-- The scene after `moreDemo` also ran. -/
def sceneDemo2 : SfMScene := (runOps sceneDemo moreDemo).toOption.getD SfMScene.new

/-- C8 witness: the concrete run assigns view ids 0, 1 and pose ids 0, 1,
and the follow-up calls leave the stored prefixes untouched. -/
theorem claim_C8_sequential_ids_witness :
    viewIdsFrom 0 sceneDemo.views
  ∧ poseIdsFrom 0 sceneDemo.poses
  ∧ sceneDemo.views.length = countViews opsDemo
  ∧ sceneDemo.poses.length = countPoses opsDemo
  ∧ sceneDemo2.views.take sceneDemo.views.length = sceneDemo.views
  ∧ sceneDemo2.poses.take sceneDemo.poses.length = sceneDemo.poses :=
  claim_C8_sequential_ids opsDemo moreDemo sceneDemo sceneDemo2 rfl rfl

/-! ## C1: OpenMVG pointer ids -/

/-- The `value.ptr_wrapper.id` field of an emitted entry, when present. -/
def ptrIdOf (entry : Json) : Option Json :=
  match jGet "value" entry with
  | none => none
  | some v =>
    match jGet "ptr_wrapper" v with
    | none => none
    | some w => jGet "id" w

/-- The list of `value.ptr_wrapper.id` fields of the array stored under
`key` of an exported document. -/
def ptrIdsOf (j : Json) (key : String) : Option (List (Option Json)) :=
  (jArr key j).map (fun xs => xs.map ptrIdOf)

lemma open_mvg_view_ptrId {cnt : Int} {v : View} {d : Json}
    (h : open_mvg_view cnt v = .ok d) : ptrIdOf d = some (.int cnt) := by
  unfold open_mvg_view at h
  cases hp : v.pathName <;> rw [hp] at h
  · exact absurd h (by simp)
  · cases hi : v._intrinsic <;> rw [hi] at h
    · exact absurd h (by simp)
    · cases hpo : v._pose <;> rw [hpo] at h
      · exact absurd h (by simp)
      · injection h with h
        subst h
        rfl

lemma open_mvg_intrinsic_ptrId {cnt : Int} {i : Intrinsic} {d : Json}
    (h : open_mvg_intrinsic cnt i = .ok d) : ptrIdOf d = some (.int cnt) := by
  unfold open_mvg_intrinsic at h
  cases hf : i.focal_length_as_pixels <;> rw [hf] at h
  · exact absurd h (by simp)
  · cases hx : i.ppx <;> rw [hx] at h
    · exact absurd h (by simp)
    · cases hy : i.ppy <;> rw [hy] at h
      · exact absurd h (by simp)
      · cases hd : distoField i <;> rw [hd] at h
        · exact absurd h (by simp)
        · injection h with h
          subst h
          rfl

lemma open_mvg_extrinsic_no_ptrId (b : Bool) (p : Pose) :
    ptrIdOf (open_mvg_extrinsic b p) = none := rfl

/-- Pointer ids handed out by `mapCounter`: the k-th successfully emitted
entry carries id `cnt + k`, and the counter comes back advanced by the
number of entries. -/
lemma mapCounter_ptrIds {α : Type} {f : Int → α → Except PyExc Json}
    (hf : ∀ {cnt : Int} {x : α} {d : Json}, f cnt x = .ok d → ptrIdOf d = some (.int cnt)) :
    ∀ (xs : List α) (cnt : Int) (js : List Json) (c : Int),
      mapCounter f cnt xs = .ok (js, c) →
      js.map ptrIdOf
        = (List.range xs.length).map (fun k : ℕ => some (Json.int (cnt + (k : Int))))
      ∧ c = cnt + (xs.length : Int) := by
  intro xs
  induction xs with
  | nil =>
    intro cnt js c h
    unfold mapCounter at h
    simp only [Except.ok.injEq, Prod.mk.injEq] at h
    obtain ⟨rfl, rfl⟩ := h
    simp
  | cons x rest ih =>
    intro cnt js c h
    unfold mapCounter at h
    split at h
    · exact absurd h (by simp)
    next jx hx =>
      split at h
      · exact absurd h (by simp)
      next js' c' hr =>
        simp only [Except.ok.injEq, Prod.mk.injEq] at h
        obtain ⟨rfl, rfl⟩ := h
        obtain ⟨ih1, ih2⟩ := ih (cnt + 1) js' c' hr
        constructor
        · rw [List.map_cons, hf hx, ih1, List.length_cons,
            List.range_succ_eq_map, List.map_cons, List.map_map]
          congr 1
          · norm_num
          · apply List.map_congr_left
            intro k _
            simp only [Function.comp_apply]
            congr 2
            push_cast
            ring
        · simp only [List.length_cons] at ih2 ⊢
          push_cast at ih2 ⊢
          omega

/-- C1: whenever `scene_to_openmvg` succeeds, the View entries carry the
pointer ids `2147483649 .. 2147483649+V-1` in scene order, the Intrinsic
entries continue with `2147483649+V .. 2147483649+V+N-1`, the extrinsic
(Pose) entries carry no `ptr_wrapper` id at all, and a second export of the
same scene (the pure function applied again) yields the identical result,
the counter being local to each call. -/
theorem claim_C1_pointer_ids (s : SfMScene) (b : Bool) (j : Json)
    (h : scene_to_openmvg s b = .ok j) :
    ptrIdsOf j "views" = some ((List.range s.views.length).map
        (fun k : ℕ => some (Json.int (2147483649 + (k : Int)))))
  ∧ ptrIdsOf j "intrinsics" = some ((List.range s.intrinsics.length).map
        (fun k : ℕ => some (Json.int (2147483649 + (s.views.length : Int) + (k : Int)))))
  ∧ ptrIdsOf j "extrinsics" = some (s.poses.map fun _ => none)
  ∧ scene_to_openmvg s b = scene_to_openmvg s b := by
  unfold scene_to_openmvg at h
  split at h
  · exact absurd h (by simp)
  next vs c1 h1 =>
    split at h
    · exact absurd h (by simp)
    next ins c2 h2 =>
      injection h with h
      subst h
      obtain ⟨hv, hc1⟩ := mapCounter_ptrIds (fun h => open_mvg_view_ptrId h) _ _ _ _ h1
      obtain ⟨hi, -⟩ := mapCounter_ptrIds (fun h => open_mvg_intrinsic_ptrId h) _ _ _ _ h2
      refine ⟨?_, ?_, ?_, rfl⟩
      · show some (vs.map ptrIdOf) = _
        rw [hv]
      · show some (ins.map ptrIdOf) = _
        rw [hi, hc1]
      · show some ((s.poses.map (open_mvg_extrinsic b)).map ptrIdOf) = _
        rw [List.map_map]
        congr 1

/-- A fully populated view for the pointer-id scenario. -/
def viewA : View :=
  { _id := some 0, _path := some "imgs/a.jpg",
    _intrinsic := some { itype := .pinhole, _id := some 0 },
    _pose := some { _id := some 0 },
    _image_width := some 100, _image_height := some 80 }

/-- A second view. -/
def viewB : View := { viewA with _id := some 1, _path := some "imgs/b.jpg" }

/-- A pinhole intrinsic with explicit derived values. -/
def intrOne : Intrinsic :=
  { itype := .pinhole, _id := some 0, _image_width := some 100,
    _image_height := some 80, _ppx := some 50, _ppy := some 40,
    _focal_length_as_pixels := some 120 }

/-- A second, distinct intrinsic. -/
def intrTwo : Intrinsic := { intrOne with _id := some 1, _focal_length_as_pixels := some 121 }

/-- A third, distinct intrinsic (radial-K3 with distortion parameters). -/
def intrThree : Intrinsic :=
  { intrOne with
    itype := .radialK3, _id := some 2,
    _focal_length_as_pixels := some 122, _dist_params := some [0, 0, 0] }

/-- Scenario A's scene: 2 views, 3 distinct intrinsics, 1 pose. -/
def sceneA : SfMScene :=
  { _root := some ".", views := [viewA, viewB],
    intrinsics := [intrOne, intrTwo, intrThree], poses := [{ _id := some 0 }] }

/-- The OpenMVG document exported from `sceneA`. -/
def sceneAJson : Json := (scene_to_openmvg sceneA true).toOption.getD .null

/-- C1 witness (Scenario A): the 2 views get pointer ids 2147483649 and
2147483650, the 3 intrinsics get 2147483651, 2147483652, 2147483653, and
the pose entry carries none. -/
theorem claim_C1_pointer_ids_witness :
    ptrIdsOf sceneAJson "views" = some ((List.range sceneA.views.length).map
        (fun k : ℕ => some (Json.int (2147483649 + (k : Int)))))
  ∧ ptrIdsOf sceneAJson "intrinsics" = some ((List.range sceneA.intrinsics.length).map
        (fun k : ℕ => some (Json.int (2147483649 + (sceneA.views.length : Int) + (k : Int)))))
  ∧ ptrIdsOf sceneAJson "extrinsics" = some (sceneA.poses.map fun _ => none)
  ∧ scene_to_openmvg sceneA true = scene_to_openmvg sceneA true :=
  claim_C1_pointer_ids sceneA true sceneAJson rfl
